import Mathlib

/-!
Verification of the vehicle-inventory data-access layer
(`src/controllers/extract_data.py`) against its specification.

The relational store is embedded shallowly: each table is a list of rows,
money is exact decimal arithmetic (`ℚ`), dates are day numbers (`ℤ`).
The embedding assumes the schema's primary-key integrity where the SQL
relies on it (e.g. at most one SaleTransaction / PurchaseTransaction row
per VIN, looked up with `List.find?`); theorems state any further
integrity assumptions they need as explicit hypotheses.
-/

namespace VehicleInventory

/-- A row of the `Vehicle` table (PK: VIN). -/
structure Vehicle where
  vin : String
  vehicleType : String
  manufacturer : String
  model : String
  year : Int
  fuelType : String
  horsepower : Int
  condition : String
  description : String
deriving Repr, DecidableEq

/-- A row of the `VehicleColor` table. -/
structure VehicleColor where
  vin : String
  colorName : String
deriving Repr, DecidableEq

/-- A row of the `SaleTransaction` table (at most one per VIN);
`sale_price` and `sold_on` are NOT NULL columns. -/
structure SaleTransaction where
  vin : String
  customerId : String
  username : String
  soldOn : Int
  salePrice : ℚ
deriving Repr, DecidableEq

/-- A row of the `PurchaseTransaction` table (at most one per VIN). -/
structure PurchaseTransaction where
  vin : String
  customerId : String
  username : String
  purchasedOn : Int
  purchasePrice : ℚ
deriving Repr, DecidableEq

/-- A row of the `PartsOrder` table (PK: order_number). -/
structure PartsOrder where
  vin : String
  vendorName : String
  orderNumber : String
  totalCost : ℚ
deriving Repr, DecidableEq

/-- A row of the `Part` table (PK: (order_number, vendor_parts_number)). -/
structure Part where
  orderNumber : String
  vendorPartNumber : String
  description : String
  quantity : Int
  status : String
  unitPrice : ℚ
deriving Repr, DecidableEq

/-- The database state: one list per table used by the claims. -/
structure DB where
  vehicles : List Vehicle
  vehicleTypes : List String
  colors : List VehicleColor
  sales : List SaleTransaction
  purchases : List PurchaseTransaction
  partsOrders : List PartsOrder
  parts : List Part
deriving Repr, DecidableEq

/-- `ROUND(q, 2)`: round to 2 decimal places, halves away from zero
(the SQL `ROUND` of the queries; money is modelled as exact rationals,
so `round` in `add_parts_order` is modelled by the same decimal rounding). -/
def round2 (q : ℚ) : ℚ :=
  (if 0 ≤ q then ((q * 100 + 1/2 : ℚ).floor : ℚ) else ((q * 100 - 1/2 : ℚ).ceil : ℚ)) / 100

/-- Python's `str.zfill`: left-pad with `'0'` up to width `n`. -/
def zfill (n : Nat) (s : String) : String :=
  if s.length ≥ n then s else String.mk (List.replicate (n - s.length) '0') ++ s

/-- `LIKE '%pat%'` over a column value: substring containment
(collation case-sensitivity is abstracted away; the claims do not
depend on it). -/
def strContains (s pat : String) : Bool :=
  pat.isEmpty || (s.splitOn pat).length ≠ 1

/-- `st.sale_price IS NOT NULL` after `LEFT JOIN SaleTransaction` on the VIN,
equivalently `vin IN (SELECT vehicle_identification_number FROM SaleTransaction)`
(sale_price is a NOT NULL column). -/
def hasSaleB (db : DB) (vin : String) : Bool :=
  db.sales.any (fun s => s.vin == vin)

/-- The correlated `EXISTS (SELECT 1 FROM Part p JOIN PartsOrder po ON
p.order_number = po.order_number WHERE po.vehicle_identification_number = vin
AND p.status != 'Installed')` used by `search_vehicles`,
`count_cars_with_pending_parts` and `count_available_cars`. -/
def hasPendingPartsB (db : DB) (vin : String) : Bool :=
  db.partsOrders.any (fun po =>
    po.vin == vin &&
    db.parts.any (fun p => p.orderNumber == po.orderNumber && p.status != "Installed"))

/-- `SUM(total_cost)` of the VIN's `PartsOrder` rows (0 when it has none). -/
def totalPartsCostRaw (db : DB) (vin : String) : ℚ :=
  (((db.partsOrders.filter (fun po => po.vin == vin)).map PartsOrder.totalCost)).sum

/-!
## `search_vehicles` (extract_data.py lines 8-196)

The Python function builds one SQL string: a fixed SELECT/JOIN prefix
ending in `... ) po_aggregated ON v.vehicle_identification_number =
po_aggregated.vehicle_identification_number`, a role-dependent `WHERE`
clause (appended only for roles in the five-role enumeration), a sequence
of `" AND ..."` clauses (one per applied filter), then
`GROUP BY`/`ORDER BY`.  The embedding reproduces the guard of each filter
(Python truthiness plus the `"Any"` sentinel), the role clause and the
computed columns.  For a role in the enumeration the filter clauses land
after the `WHERE` and restrict the row set.  For a role outside the
enumeration no `WHERE` is appended, so the `" AND ..."` clauses extend
the `po_aggregated` `LEFT JOIN`'s `ON` condition instead: the query is
still valid MySQL, it returns one row for every vehicle, and the filters
only decide whether the parts aggregate attaches to a row — where the
migrated condition fails, `po_aggregated.TotalPartsCost` is `NULL`, so
the reported `TotalPartsCost` and the parts term of the computed
`SalePrice` fall back to 0.
-/

/-- The value of the dynamically-typed `year` argument at its call sites
(`search.py` passes either the string `"Any"` or an `int` from the year
dropdown). -/
inductive YearArg where
  | any : YearArg
  | num : Int → YearArg
deriving Repr, DecidableEq

/-- Guard `if <filter> and <filter> != "Any":` for a string filter:
the clause is appended iff the value is present, non-empty (Python
truthiness) and not the sentinel `"Any"`. -/
def strFilterApplies : Option String → Bool
  | none => false
  | some s => s != "" && s != "Any"

/-- Guard `if year and year != "Any":` — an `int` is truthy iff nonzero,
and an `int` never equals the string `"Any"`; the string `"Any"` is
excluded by the second conjunct. -/
def yearFilterApplies : Option YearArg → Bool
  | none => false
  | some .any => false
  | some (.num n) => n != 0

/-- Guard `if keyword:` / `if vin:` — truthiness only (no `"Any"` check). -/
def truthyApplies : Option String → Bool
  | none => false
  | some s => s != ""

/-- Contribution of an equality filter on a `Vehicle` column: `True`
when the filter is not applied, otherwise `column = :param`. -/
def strFilterOk (f : Option String) (column : String) : Bool :=
  !(strFilterApplies f) || column == f.getD ""

/-- Contribution of the `year` filter: `v.year = :year`. -/
def yearFilterOk (f : Option YearArg) (year : Int) : Bool :=
  match f with
  | none => true
  | some .any => true
  | some (.num n) => !(n != 0) || year == n

/-- Contribution of the `color` filter: `vc.color_name = :color` after
`LEFT JOIN VehicleColor` — satisfiable only by a vehicle having a
`VehicleColor` row with that color (`NULL` never equals the parameter). -/
def colorFilterOk (db : DB) (f : Option String) (vin : String) : Bool :=
  !(strFilterApplies f) ||
    db.colors.any (fun c => c.vin == vin && c.colorName == f.getD "")

/-- Contribution of the `keyword` filter: `LIKE %kw%` against
manufacturer, model, `CAST(year AS CHAR)` and description. -/
def keywordFilterOk (f : Option String) (v : Vehicle) : Bool :=
  !(truthyApplies f) ||
    (strContains v.manufacturer (f.getD "") ||
     strContains v.model (f.getD "") ||
     strContains (toString v.year) (f.getD "") ||
     strContains v.description (f.getD ""))

/-- Contribution of the `vin` filter: `v.vehicle_identification_number = :vin`. -/
def vinFilterOk (f : Option String) (vin : String) : Bool :=
  !(truthyApplies f) || vin == f.getD ""

/-- Conjunction of the seven dynamically-appended `AND` clauses. -/
def matchesFilters (db : DB) (vehicle_type manufacturer : Option String)
    (year : Option YearArg) (fuel_type color keyword vin : Option String)
    (v : Vehicle) : Bool :=
  strFilterOk vehicle_type v.vehicleType &&
  strFilterOk manufacturer v.manufacturer &&
  yearFilterOk year v.year &&
  strFilterOk fuel_type v.fuelType &&
  colorFilterOk db color v.vin &&
  keywordFilterOk keyword v &&
  vinFilterOk vin v.vin

/-- Whether at least one `" AND ..."` clause is appended to the query. -/
def anyFilterApplied (vehicle_type manufacturer : Option String)
    (year : Option YearArg) (fuel_type color keyword vin : Option String) : Bool :=
  strFilterApplies vehicle_type || strFilterApplies manufacturer ||
  yearFilterApplies year || strFilterApplies fuel_type ||
  strFilterApplies color || truthyApplies keyword || truthyApplies vin

/-- The role-dependent `WHERE` clause of `search_vehicles`; `none` when the
role is outside the five-role enumeration (no clause appended at all). -/
inductive RoleClause where
  | unsoldNoPending : RoleClause
  | unsold : RoleClause
  | sold : RoleClause
  | allRows : RoleClause
deriving Repr, DecidableEq

/-- The `if role in [...]` / `elif` chain of lines 69-88. -/
def roleClause (role : String) (vehicle_status : Option String) : Option RoleClause :=
  if role == "Public" || role == "Salesperson" then some .unsoldNoPending
  else if role == "Inventory clerk" then some .unsold
  else if role == "Manager" || role == "Owner" then
    (if vehicle_status == some "Sold" then some .sold
     else if vehicle_status == some "Unsold" then some .unsold
     else some .allRows)
  else none

/-- Row predicate of each role clause (on the vehicle's VIN). -/
def roleClauseOk (db : DB) : RoleClause → String → Bool
  | .unsoldNoPending, vin => !(hasSaleB db vin) && !(hasPendingPartsB db vin)
  | .unsold, vin => !(hasSaleB db vin)
  | .sold, vin => hasSaleB db vin
  | .allRows, _ => true

/-- One output row of the SELECT (the full, unprojected column set). -/
structure Row where
  vin : String
  vehicleType : String
  manufacturer : String
  model : String
  year : Int
  fuelType : String
  colors : Option String
  horsepower : Int
  salePrice : Option ℚ
  purchasePrice : Option ℚ
  purchaseDate : Option Int
  totalPartsCost : ℚ
  description : String
deriving Repr, DecidableEq

/-- The columns computed by the SELECT for one vehicle (the `GROUP BY`
over the vehicle's primary key yields one row per matching vehicle;
`SaleTransaction` and `PurchaseTransaction` are keyed by VIN, so the
`LEFT JOIN`s contribute the unique matching row, if any). -/
def rowOf (db : DB) (v : Vehicle) : Row :=
  { vin := v.vin
    vehicleType := v.vehicleType
    manufacturer := v.manufacturer
    model := v.model
    year := v.year
    fuelType := v.fuelType
    colors :=
      (let cs := ((db.colors.filter (fun c => c.vin == v.vin)).map VehicleColor.colorName).dedup
       if cs.isEmpty then none else some (String.intercalate ", " cs))
    horsepower := v.horsepower
    salePrice :=
      (match db.sales.find? (fun s => s.vin == v.vin) with
       | some s => some s.salePrice
       | none =>
         match db.purchases.find? (fun p => p.vin == v.vin) with
         | some p => some (round2 ((1.25 : ℚ) * p.purchasePrice + (1.1 : ℚ) * totalPartsCostRaw db v.vin))
         | none => none)
    purchasePrice := (db.purchases.find? (fun p => p.vin == v.vin)).map PurchaseTransaction.purchasePrice
    purchaseDate := (db.purchases.find? (fun p => p.vin == v.vin)).map PurchaseTransaction.purchasedOn
    totalPartsCost := round2 (totalPartsCostRaw db v.vin)
    description := v.description }

/-- The columns computed when the appended filter clauses have migrated
into the `po_aggregated` `LEFT JOIN`'s `ON` condition (the branch with no
role-based `WHERE`): the vehicle row itself is always produced, but the
parts aggregate attaches only where the migrated condition holds
(`attached`), so `TotalPartsCost` and the parts term of the computed
`SalePrice` read `IFNULL(NULL, 0) = 0` elsewhere.  The appended color
clause compares the row's `vc.color_name`; for a vehicle whose color rows
disagree on it, MySQL reports the non-aggregated `po_aggregated` columns
from an indeterminate row of the group — the embedding resolves that
choice existentially through `matchesFilters` at the call site, and the
theorems below do not depend on the resolution. -/
def rowOfMigrated (db : DB) (attached : Bool) (v : Vehicle) : Row :=
  { vin := v.vin
    vehicleType := v.vehicleType
    manufacturer := v.manufacturer
    model := v.model
    year := v.year
    fuelType := v.fuelType
    colors :=
      (let cs := ((db.colors.filter (fun c => c.vin == v.vin)).map VehicleColor.colorName).dedup
       if cs.isEmpty then none else some (String.intercalate ", " cs))
    horsepower := v.horsepower
    salePrice :=
      (match db.sales.find? (fun s => s.vin == v.vin) with
       | some s => some s.salePrice
       | none =>
         match db.purchases.find? (fun p => p.vin == v.vin) with
         | some p => some (round2 ((1.25 : ℚ) * p.purchasePrice +
             (1.1 : ℚ) * (if attached then totalPartsCostRaw db v.vin else 0)))
         | none => none)
    purchasePrice := (db.purchases.find? (fun p => p.vin == v.vin)).map PurchaseTransaction.purchasePrice
    purchaseDate := (db.purchases.find? (fun p => p.vin == v.vin)).map PurchaseTransaction.purchasedOn
    totalPartsCost := round2 (if attached then totalPartsCostRaw db v.vin else 0)
    description := v.description }

/-- The role-dependent column projection applied to the result DataFrame
(lines 163-196): Public/Salesperson drop the cost columns, Inventory clerk
drops the computed `SalePrice`, Manager/Owner — and the final fall-through
`return df` for any other role — return every column. -/
inductive Projection where
  | publicCols : Projection
  | clerkCols : Projection
  | allCols : Projection
deriving Repr, DecidableEq

/-- Which projection a role receives. -/
def projectionFor (role : String) : Projection :=
  if role == "Public" || role == "Salesperson" then .publicCols
  else if role == "Inventory clerk" then .clerkCols
  else .allCols

/-- Column names of each projection, from the source's column lists. -/
def projectedColumns : Projection → List String
  | .publicCols =>
    ["VIN", "VehicleType", "Manufacturer", "Model", "Year", "FuelType",
     "Colors", "Horsepower", "SalePrice"]
  | .clerkCols =>
    ["VIN", "VehicleType", "Manufacturer", "Model", "Year", "FuelType",
     "Colors", "Horsepower", "PurchasePrice", "TotalPartsCost"]
  | .allCols =>
    ["VIN", "VehicleType", "Manufacturer", "Model", "Year", "FuelType",
     "Colors", "Horsepower", "SalePrice", "PurchasePrice", "PurchaseDate",
     "TotalPartsCost", "Description"]

/-- Insert into a list sorted by a `String` key. -/
def insertKey (key : α → String) (a : α) : List α → List α
  | [] => [a]
  | b :: l => if key a ≤ key b then a :: b :: l else b :: insertKey key a l

/-- Insertion sort by a `String` key (`ORDER BY ... ASC`). -/
def sortKey (key : α → String) : List α → List α
  | [] => []
  | a :: l => insertKey key a (sortKey key l)

/-- `search_vehicles`: role clause, filters, computed columns, ordering and
projection.  For a role in the enumeration the filter clauses follow the
role's `WHERE` and restrict the rows.  For a role outside the enumeration
no `WHERE` exists and the appended `" AND ..."` clauses extend the
`po_aggregated` `LEFT JOIN`'s `ON` condition: every vehicle is returned,
filters only gate the parts aggregate (`rowOfMigrated`); with no applied
filter the query is the unrestricted base query. -/
def search_vehicles (db : DB) (vehicle_type manufacturer : Option String)
    (year : Option YearArg) (fuel_type color keyword vin : Option String)
    (vehicle_status : Option String) (role : String) :
    Projection × List Row :=
  match roleClause role vehicle_status with
  | some rc =>
    (projectionFor role,
      sortKey Row.vin
        ((db.vehicles.filter (fun v =>
            roleClauseOk db rc v.vin &&
            matchesFilters db vehicle_type manufacturer year fuel_type color keyword vin v)).map
          (rowOf db)))
  | none =>
    if anyFilterApplied vehicle_type manufacturer year fuel_type color keyword vin then
      (projectionFor role,
        sortKey Row.vin
          (db.vehicles.map (fun v =>
            rowOfMigrated db
              (matchesFilters db vehicle_type manufacturer year fuel_type color keyword vin v) v)))
    else
      (projectionFor role, sortKey Row.vin (db.vehicles.map (rowOf db)))

/-!
## Vehicle counts (extract_data.py lines 199-252, 967-977)
-/

/-- `count_cars_with_pending_parts`: `COUNT(DISTINCT v.vin)` over
`Vehicle ⋈ PartsOrder ⋈ Part` with `p.status != 'Installed'` and the VIN
not in `SaleTransaction` — the distinct VINs of unsold vehicles having at
least one non-Installed part through one of their orders. -/
def count_cars_with_pending_parts (db : DB) : Nat :=
  (((db.vehicles.filter (fun v =>
      !(hasSaleB db v.vin) && hasPendingPartsB db v.vin)).map
    Vehicle.vin).dedup).length

/-- `count_available_cars`: `COUNT(DISTINCT v.vin)` over `Vehicle LEFT
JOIN PartsOrder` with `NOT EXISTS` (non-Installed part) and the VIN not in
`SaleTransaction` (the `LEFT JOIN` keeps vehicles with zero orders and the
`DISTINCT` collapses its multiplicity). -/
def count_available_cars (db : DB) : Nat :=
  (((db.vehicles.filter (fun v =>
      !(hasSaleB db v.vin) && !(hasPendingPartsB db v.vin))).map
    Vehicle.vin).dedup).length

/-- `get_vehicle_counts`: the `(available, pending)` pair. -/
def get_vehicle_counts (db : DB) : Nat × Nat :=
  (count_available_cars db, count_cars_with_pending_parts db)

/-!
## `average_inventory_time_report` (extract_data.py lines 315-345)
-/

/-- Value of the report's `AvgInventoryTime` column: the `CASE` yields the
string `'N/A'` when `COUNT(st.sold_on) = 0`, otherwise
`ROUND(AVG(DATEDIFF(st.sold_on, pt.purchased_on) + 1), 2)` — which is SQL
`NULL` when every `DATEDIFF` term is `NULL` (a sold vehicle with no
`PurchaseTransaction` row contributes `NULL` to the average). -/
inductive AvtVal where
  | na : AvtVal
  | nullVal : AvtVal
  | val : ℚ → AvtVal
deriving Repr, DecidableEq

/-- The group's `DATEDIFF(st.sold_on, pt.purchased_on) + 1` values:
one per vehicle of the type having both a sale and a purchase row
(`AVG` ignores `NULL` terms). -/
def avtDays (db : DB) (t : String) : List ℚ :=
  (db.vehicles.filter (fun v => v.vehicleType == t)).filterMap (fun v =>
    match db.sales.find? (fun s => s.vin == v.vin),
          db.purchases.find? (fun p => p.vin == v.vin) with
    | some s, some p => some ((s.soldOn - p.purchasedOn + 1 : Int) : ℚ)
    | _, _ => none)

/-- `COUNT(st.sold_on)` within the group: vehicles of the type having a
`SaleTransaction` row. -/
def avtSoldCount (db : DB) (t : String) : Nat :=
  ((db.vehicles.filter (fun v => v.vehicleType == t)).filter (fun v =>
    hasSaleB db v.vin)).length

/-- The `CASE` expression of one report row. -/
def avtValue (db : DB) (t : String) : AvtVal :=
  if avtSoldCount db t = 0 then .na
  else
    match avtDays db t with
    | [] => .nullVal
    | ds => .val (round2 (ds.sum / (ds.length : ℚ)))

/-- The group keys: `GROUP BY vt.vehicle_type` over
`Vehicle JOIN VehicleType` — the distinct `VehicleType` entries borne by
at least one vehicle (a duplicated `VehicleType` row would only scale the
group's multiplicity, changing neither the `CASE` test nor the average). -/
def avtTypes (db : DB) : List String :=
  (db.vehicleTypes.filter (fun t =>
    db.vehicles.any (fun v => v.vehicleType == t))).dedup

/-- `average_inventory_time_report`: one `(VehicleType, AvgInventoryTime)`
row per group, `ORDER BY vt.vehicle_type ASC`. -/
def average_inventory_time_report (db : DB) : List (String × AvtVal) :=
  (sortKey id (avtTypes db)).map (fun t => (t, avtValue db t))

/-!
## `add_parts_order` (extract_data.py lines 497-560)
-/

/-- One element of the `parts` list argument of `add_parts_order`
(the dict keys used by the function). -/
structure PartInput where
  vendor_part_number : String
  part_description : String
  quantity : Int
  part_status : String
  unit_price : ℚ
deriving Repr, DecidableEq

/-- `add_parts_order`: computes `order_number = f"{vin}-{zfill 3 (count+1)}"`
from the count of the VIN's existing `PartsOrder` rows, sums
`unit_price * quantity` over the supplied parts (Python `round(..., 2)`),
inserts the `PartsOrder` row then each `Part` row, committing once at the
end.  Any raising insert (a duplicate `PartsOrder.order_number` primary
key, or a duplicate `(order_number, vendor_parts_number)` within the
batch) rolls the whole transaction back and returns `False`. -/
def add_parts_order (db : DB) (vin vendor_name : String)
    (parts : List PartInput) : Bool × DB :=
  let count := (db.partsOrders.filter (fun po => po.vin == vin)).length
  let order_number := vin ++ "-" ++ zfill 3 (toString (count + 1))
  let total_cost := round2 ((parts.map (fun p => p.unit_price * (p.quantity : ℚ))).sum)
  if db.partsOrders.any (fun po => po.orderNumber == order_number) ||
     !(parts.map PartInput.vendor_part_number).Nodup then
    (false, db)
  else
    (true,
      { db with
        partsOrders := db.partsOrders ++
          [{ vin := vin, vendorName := vendor_name,
             orderNumber := order_number, totalCost := total_cost }]
        parts := db.parts ++ parts.map (fun p =>
          { orderNumber := order_number,
            vendorPartNumber := p.vendor_part_number,
            description := p.part_description,
            quantity := p.quantity,
            status := p.part_status,
            unitPrice := p.unit_price }) })

/-!
## Part-status updates (extract_data.py lines 1435-1489 and 1688-1720)
-/

/-- The `valid_status_transitions` dict of `update_part_status`
(`dict.get(current, [])` for an unknown current status). -/
def valid_status_transitions (current : String) : List String :=
  if current == "Ordered" then ["Received", "Installed"]
  else if current == "Received" then ["Installed"]
  else if current == "Installed" then []
  else []

/-- `update_part_status`: fetches the part's current status
(`fetchone` on the `(order_number, vendor_parts_number)` key), returns
`False` if absent, applies the `UPDATE` and returns `True` only when the
requested status is in `valid_status_transitions[current]`. -/
def update_part_status (db : DB) (order_number vendor_part_number new_status : String) :
    Bool × DB :=
  match db.parts.find? (fun p =>
      p.orderNumber == order_number && p.vendorPartNumber == vendor_part_number) with
  | none => (false, db)
  | some p =>
    if new_status ∈ valid_status_transitions p.status then
      (true,
        { db with
          parts := db.parts.map (fun q =>
            if q.orderNumber == order_number && q.vendorPartNumber == vendor_part_number then
              { q with status := new_status }
            else q) })
    else (false, db)

/-- `update_status`: executes the `UPDATE ... SET status = :new_status`
directly — no transition validation — and returns `rowcount > 0`
(SQLAlchemy's MySQL dialects enable `FOUND_ROWS`, so `rowcount` is the
number of rows matched by the `WHERE` clause). -/
def update_status (db : DB) (new_status vendor_part_number order_number : String) :
    Bool × DB :=
  ((db.parts.filter (fun p =>
      p.vendorPartNumber == vendor_part_number && p.orderNumber == order_number)).length > 0,
   { db with
     parts := db.parts.map (fun p =>
       if p.vendorPartNumber == vendor_part_number && p.orderNumber == order_number then
         { p with status := new_status }
       else p) })

/-!
## Helper lemmas
-/

theorem mem_insertKey {key : α → String} {a b : α} {l : List α} :
    b ∈ insertKey key a l ↔ b = a ∨ b ∈ l := by
  induction l with
  | nil => simp [insertKey]
  | cons c l ih =>
    by_cases h : key a ≤ key c
    · simp only [insertKey, if_pos h, List.mem_cons]
    · simp only [insertKey, if_neg h, List.mem_cons, ih]
      tauto

theorem mem_sortKey {key : α → String} {b : α} {l : List α} :
    b ∈ sortKey key l ↔ b ∈ l := by
  induction l with
  | nil => simp [sortKey]
  | cons c l ih => simp [sortKey, mem_insertKey, ih]

theorem perm_insertKey (key : α → String) (a : α) (l : List α) :
    List.Perm (insertKey key a l) (a :: l) := by
  induction l with
  | nil => simp [insertKey]
  | cons c l ih =>
    by_cases h : key a ≤ key c
    · simp [insertKey, h]
    · simpa [insertKey, h] using ((ih.cons c).trans (List.Perm.swap a c l))

theorem perm_sortKey (key : α → String) (l : List α) : List.Perm (sortKey key l) l := by
  induction l with
  | nil => simp [sortKey]
  | cons c l ih => exact (perm_insertKey key c (sortKey key l)).trans (ih.cons c)

theorem pairwise_insertKey {key : α → String} {a : α} {l : List α}
    (h : l.Pairwise (fun x y => key x ≤ key y)) :
    (insertKey key a l).Pairwise (fun x y => key x ≤ key y) := by
  induction l with
  | nil => simp [insertKey]
  | cons c l ih =>
    rcases List.pairwise_cons.mp h with ⟨hc, hl⟩
    by_cases hac : key a ≤ key c
    · rw [show insertKey key a (c :: l) = a :: c :: l from by simp [insertKey, hac]]
      refine List.pairwise_cons.mpr ⟨?_, h⟩
      intro b hb
      rcases List.mem_cons.mp hb with rfl | hb
      · exact hac
      · exact le_trans hac (hc b hb)
    · rw [show insertKey key a (c :: l) = c :: insertKey key a l from by simp [insertKey, hac]]
      refine List.pairwise_cons.mpr ⟨?_, ih hl⟩
      intro b hb
      rcases mem_insertKey.mp hb with rfl | hb
      · exact le_of_not_le hac
      · exact hc b hb

theorem pairwise_sortKey (key : α → String) (l : List α) :
    (sortKey key l).Pairwise (fun x y => key x ≤ key y) := by
  induction l with
  | nil => simp [sortKey]
  | cons c l ih => exact pairwise_insertKey ih

theorem map_filter_comm (f : α → β) (p : β → Bool) (l : List α) :
    (l.filter (fun v => p (f v))).map f = (l.map f).filter p := by
  induction l with
  | nil => rfl
  | cons a l ih =>
    by_cases h : p (f a) <;> simp [h, ih]

theorem dedup_filter_comm [DecidableEq α] (p : α → Bool) (l : List α) :
    (l.filter p).dedup = l.dedup.filter p := by
  induction l with
  | nil => rfl
  | cons a l ih =>
    by_cases hp : p a
    · by_cases hm : a ∈ l
      · rw [List.filter_cons_of_pos hp, List.dedup_cons_of_mem hm,
          List.dedup_cons_of_mem (List.mem_filter.mpr ⟨hm, hp⟩), ih]
      · have hm' : a ∉ l.filter p := fun h => hm (List.mem_filter.mp h).1
        rw [List.filter_cons_of_pos hp, List.dedup_cons_of_not_mem hm',
          List.dedup_cons_of_not_mem hm, List.filter_cons_of_pos hp, ih]
    · by_cases hm : a ∈ l
      · rw [List.filter_cons_of_neg hp, List.dedup_cons_of_mem hm, ih]
      · rw [List.filter_cons_of_neg hp, List.dedup_cons_of_not_mem hm,
          List.filter_cons_of_neg hp, ih]

theorem strFilterApplies_any : strFilterApplies (some "Any") = false := by decide

theorem strFilterApplies_none : strFilterApplies none = false := rfl

theorem strFilterOk_any (c : String) : strFilterOk (some "Any") c = true := by
  simp [strFilterOk, strFilterApplies_any]

theorem strFilterOk_none (c : String) : strFilterOk none c = true := rfl

theorem yearFilterOk_any (y : Int) : yearFilterOk (some .any) y = true := rfl

theorem yearFilterOk_none (y : Int) : yearFilterOk none y = true := rfl

theorem colorFilterOk_any (db : DB) (vin : String) :
    colorFilterOk db (some "Any") vin = true := by
  simp [colorFilterOk, strFilterApplies_any]

theorem colorFilterOk_none (db : DB) (vin : String) :
    colorFilterOk db none vin = true := rfl

theorem matchesFilters_none (db : DB) (v : Vehicle) :
    matchesFilters db none none none none none none none v = true := rfl

/-- Every row of a `search_vehicles` result set is the base-query column
row of some stored vehicle, provided the query carried a role-based
`WHERE` clause or appended no filter clause (otherwise the appended
clauses migrate into the parts aggregate's `ON` condition and the rows
are `rowOfMigrated` instead). -/
theorem search_rows_shape {db : DB} {vt mf : Option String} {yr : Option YearArg}
    {ft cl kw vn vs : Option String} {role : String}
    {pr : Projection} {rows : List Row}
    (hgood : roleClause role vs ≠ none ∨ anyFilterApplied vt mf yr ft cl kw vn = false)
    (hok : search_vehicles db vt mf yr ft cl kw vn vs role = (pr, rows)) :
    ∀ r ∈ rows, ∃ v ∈ db.vehicles, r = rowOf db v := by
  intro r hr
  unfold search_vehicles at hok
  rcases hrc : roleClause role vs with _ | rc
  · rw [hrc] at hok
    have hfa : anyFilterApplied vt mf yr ft cl kw vn = false := by
      rcases hgood with hgood | hgood
      · exact absurd hrc hgood
      · exact hgood
    rw [hfa] at hok
    simp only [Bool.false_eq_true, if_false, Prod.mk.injEq] at hok
    rcases hok with ⟨-, hrows⟩
    rw [← hrows] at hr
    rcases List.mem_map.mp (mem_sortKey.mp hr) with ⟨v, hv, hvr⟩
    exact ⟨v, hv, hvr.symm⟩
  · rw [hrc] at hok
    simp only [Prod.mk.injEq] at hok
    rcases hok with ⟨-, hrows⟩
    rw [← hrows] at hr
    rcases List.mem_map.mp (mem_sortKey.mp hr) with ⟨v, hv, hvr⟩
    exact ⟨v, (List.mem_filter.mp hv).1, hvr.symm⟩

theorem rowOf_salePrice_sold {db : DB} {v : Vehicle} {s : SaleTransaction}
    (hs : db.sales.find? (fun x => x.vin == v.vin) = some s) :
    (rowOf db v).salePrice = some s.salePrice := by
  simp [rowOf, hs]

theorem rowOf_salePrice_unsold {db : DB} {v : Vehicle} {p : PurchaseTransaction}
    (hs : db.sales.find? (fun x => x.vin == v.vin) = none)
    (hp : db.purchases.find? (fun x => x.vin == v.vin) = some p) :
    (rowOf db v).salePrice =
      some (round2 ((1.25 : ℚ) * p.purchasePrice + (1.1 : ℚ) * totalPartsCostRaw db v.vin)) := by
  simp [rowOf, hs, hp]

/-!
## Claims
-/

/-- A vehicle whose type does not match the filter, unsold, purchased at
$10,000, with one parts order totaling $500. -/
def dbC1x : DB :=
  ⟨[⟨"V1", "Sedan", "Honda", "Accord", 2003, "Gas", 240, "Good", "clean"⟩],
   ["Sedan"], [], [], [⟨"V1", "c1", "clerk", 0, 10000⟩],
   [⟨"V1", "Acme", "V1-001", 500⟩], []⟩

/-- C1 counterexample: invoked with the unknown role `"Guest"` and the
filter `vehicle_type = "SUV"`, the appended clause migrates into the
parts aggregate's `ON` condition; the non-matching Sedan is still
returned, but its `SalePrice` is `round(1.25 × 10000 + 1.1 × 0, 2) =
12500`, not `round(1.25 × 10000 + 1.1 × 500, 2) = 13050` as the claim's
formula demands — the `SalePrice` column does not always equal the
formula over the vehicle's actual parts cost. -/
theorem C1_counterexample :
    ((search_vehicles dbC1x (some "SUV") none none none none none none none "Guest").2.map
        (fun r => (r.vin, r.salePrice))) = [("V1", some (12500 : ℚ))] ∧
    totalPartsCostRaw dbC1x "V1" = 500 ∧
    (12500 : ℚ) ≠ round2 ((1.25 : ℚ) * 10000 + (1.1 : ℚ) * totalPartsCostRaw dbC1x "V1") := by
  have htc : totalPartsCostRaw dbC1x "V1" = 500 := by
    simp [totalPartsCostRaw, dbC1x]
  refine ⟨?_, htc, ?_⟩
  · rw [show (search_vehicles dbC1x (some "SUV") none none none none none none none "Guest").2 =
        [rowOfMigrated dbC1x false
          ⟨"V1", "Sedan", "Honda", "Accord", 2003, "Gas", 240, "Good", "clean"⟩] from rfl]
    simp only [List.map_cons, List.map_nil, rowOfMigrated, dbC1x, List.find?]
    norm_num [round2, Rat.floor]
  · rw [htc]
    norm_num [round2, Rat.floor]

/-- C1 (amended): in every result row of `search_vehicles` invoked with a
role in the five-role enumeration (whose filters follow a `WHERE`
clause), or with no appended filter clause, the `SalePrice` column of a
vehicle with no `SaleTransaction` row equals
`ROUND(1.25 * purchase_price + 1.1 * total_parts_cost, 2)` where
`total_parts_cost` sums the vehicle's `PartsOrder.total_cost` values
(0 when it has none), and that of a vehicle with a `SaleTransaction` row
equals the recorded `sale_price`; for a role outside the enumeration with
applied filters, the clauses extend the parts aggregate's `ON` condition
and suppress the parts term where they fail, so an unsold vehicle's
`SalePrice` can fall back to `ROUND(1.25 * purchase_price + 1.1 * 0, 2)`
despite existing `PartsOrder` rows. -/
theorem C1_amended {db : DB} {vt mf : Option String} {yr : Option YearArg}
    {ft cl kw vn vs : Option String} {role : String} {pr : Projection} {rows : List Row}
    (hgood : roleClause role vs ≠ none ∨ anyFilterApplied vt mf yr ft cl kw vn = false)
    (hok : search_vehicles db vt mf yr ft cl kw vn vs role = (pr, rows)) :
    ∀ r ∈ rows,
      (∀ s, db.sales.find? (fun x => x.vin == r.vin) = some s →
        r.salePrice = some s.salePrice) ∧
      (db.sales.find? (fun x => x.vin == r.vin) = none →
        ∀ p, db.purchases.find? (fun x => x.vin == r.vin) = some p →
          r.salePrice = some (round2 ((1.25 : ℚ) * p.purchasePrice +
            (1.1 : ℚ) * totalPartsCostRaw db r.vin))) := by
  intro r hr
  rcases search_rows_shape hgood hok r hr with ⟨v, hv, rfl⟩
  have hvin : (rowOf db v).vin = v.vin := rfl
  constructor
  · intro s hs
    rw [hvin] at hs
    exact rowOf_salePrice_sold hs
  · intro hs p hp
    rw [hvin] at hs hp
    rw [hvin]
    exact rowOf_salePrice_unsold hs hp

/-- The spec's scenario vehicle: purchased at $10,000 with one parts order
totaling $500, unsold. -/
def vEx1 : Vehicle :=
  ⟨"1HGCM82633A004352", "Sedan", "Honda", "Accord", 2003, "Gas", 240, "Good", "clean"⟩

def pEx1 : PurchaseTransaction := ⟨"1HGCM82633A004352", "c1", "clerk", 0, 10000⟩

def dbEx1 : DB :=
  { vehicles := [vEx1]
    vehicleTypes := ["Sedan"]
    colors := []
    sales := []
    purchases := [pEx1]
    partsOrders := [⟨"1HGCM82633A004352", "Acme", "1HGCM82633A004352-001", 500⟩]
    parts := [] }

/-- C1 witness: in the spec's scenario, searched under role `Public`, the
computed asking price is `round(1.25 × 10000 + 1.1 × 500, 2) = 13050.00`. -/
theorem C1_witness :
    ((rowOf dbEx1 vEx1).salePrice =
      some (round2 ((1.25 : ℚ) * pEx1.purchasePrice +
        (1.1 : ℚ) * totalPartsCostRaw dbEx1 (rowOf dbEx1 vEx1).vin))) ∧
    (rowOf dbEx1 vEx1).salePrice = some (13050 : ℚ) := by
  constructor
  · exact ((@C1_amended dbEx1 none none none none none none none none
      "Public" .publicCols [rowOf dbEx1 vEx1] (Or.inl (by decide)) rfl)
      (rowOf dbEx1 vEx1) (List.mem_singleton.mpr rfl)).2 rfl pEx1 rfl
  · show (rowOf dbEx1 vEx1).salePrice = some (13050 : ℚ)
    simp only [rowOf, dbEx1, vEx1, pEx1, totalPartsCostRaw, List.find?, List.filter,
      List.map, List.sum_cons, List.sum_nil]
    norm_num [round2, Rat.floor]

theorem mem_valid_status_transitions (cur ns : String) :
    ns ∈ valid_status_transitions cur ↔
      ((cur = "Ordered" ∧ (ns = "Received" ∨ ns = "Installed")) ∨
       (cur = "Received" ∧ ns = "Installed")) := by
  unfold valid_status_transitions
  split_ifs with h1 h2 h3 <;> simp_all

/-- C2: `update_part_status` succeeds — returns `True` and sets the
status — exactly for the transitions Ordered→Received, Ordered→Installed
and Received→Installed; any other requested transition (in particular
from `Installed`, and Received→Ordered) returns `False` and leaves the
part unchanged, and a missing `(order_number, vendor_part_number)` pair
returns `False`. -/
theorem C2_update_part_status (db : DB) (onum vpn ns : String) :
    (db.parts.find? (fun p => p.orderNumber == onum && p.vendorPartNumber == vpn) = none →
      update_part_status db onum vpn ns = (false, db)) ∧
    (∀ p, db.parts.find? (fun q => q.orderNumber == onum && q.vendorPartNumber == vpn) = some p →
      (((update_part_status db onum vpn ns).1 = true) ↔
        ((p.status = "Ordered" ∧ (ns = "Received" ∨ ns = "Installed")) ∨
         (p.status = "Received" ∧ ns = "Installed"))) ∧
      ((update_part_status db onum vpn ns).1 = true →
        (update_part_status db onum vpn ns).2.parts =
          db.parts.map (fun q =>
            if q.orderNumber == onum && q.vendorPartNumber == vpn then
              { q with status := ns } else q)) ∧
      ((update_part_status db onum vpn ns).1 = false →
        update_part_status db onum vpn ns = (false, db))) := by
  have hnone : db.parts.find? (fun q => q.orderNumber == onum && q.vendorPartNumber == vpn) = none →
      update_part_status db onum vpn ns = (false, db) := by
    intro hf
    simp only [update_part_status, hf]
  refine ⟨hnone, ?_⟩
  intro p hf
  have hred : update_part_status db onum vpn ns =
      (if ns ∈ valid_status_transitions p.status then
        (true, { db with parts := db.parts.map (fun q =>
          if q.orderNumber == onum && q.vendorPartNumber == vpn then
            { q with status := ns } else q) })
      else (false, db)) := by
    simp only [update_part_status, hf]
  by_cases hm : ns ∈ valid_status_transitions p.status
  · rw [hred, if_pos hm]
    refine ⟨?_, fun _ => rfl, ?_⟩
    · simpa using (mem_valid_status_transitions p.status ns).mp hm
    · intro h
      simp at h
  · rw [hred, if_neg hm]
    refine ⟨?_, ?_, fun _ => rfl⟩
    · constructor
      · intro h
        simp at h
      · intro h
        exact absurd ((mem_valid_status_transitions p.status ns).mpr h) hm
    · intro h
      simp at h

def pEx2 : Part := ⟨"o1", "p1", "d", 1, "Ordered", 5⟩

def dbEx2 : DB := ⟨[], [], [], [], [], [⟨"V1", "Acme", "o1", 5⟩], [pEx2]⟩

/-- C2 witness: on a part currently `Ordered`, requesting `Received`
succeeds and sets the status; requesting `Ordered` again fails and leaves
the database unchanged; a missing pair fails. -/
theorem C2_witness :
    (update_part_status dbEx2 "o1" "p1" "Received").1 = true ∧
    (update_part_status dbEx2 "o1" "p1" "Received").2.parts =
      [⟨"o1", "p1", "d", 1, "Received", 5⟩] ∧
    update_part_status dbEx2 "o1" "p1" "Ordered" = (false, dbEx2) ∧
    update_part_status dbEx2 "o9" "p9" "Received" = (false, dbEx2) := by
  refine ⟨?_, by decide, ?_, ?_⟩
  · exact (((C2_update_part_status dbEx2 "o1" "p1" "Received").2 pEx2 rfl).1).mpr
      (Or.inl ⟨rfl, Or.inl rfl⟩)
  · exact ((C2_update_part_status dbEx2 "o1" "p1" "Ordered").2 pEx2 rfl).2.2 rfl
  · exact (C2_update_part_status dbEx2 "o9" "p9" "Received").1 rfl

def pEx3 : Part := ⟨"o1", "p1", "d", 1, "Installed", 5⟩

def dbEx3 : DB := ⟨[], [], [], [], [], [⟨"V1", "Acme", "o1", 5⟩], [pEx3]⟩

/-- C3 counterexample: on a part currently `Installed`, `update_status`
with requested status `Ordered` — an illegal transition — returns `True`
and overwrites the stored status, so it does not validate the transition
and does not leave the stored status unmodified. -/
theorem C3_counterexample :
    (update_status dbEx3 "Ordered" "p1" "o1").1 = true ∧
    (update_status dbEx3 "Ordered" "p1" "o1").2.parts =
      [⟨"o1", "p1", "d", 1, "Ordered", 5⟩] ∧
    ¬ ((update_status dbEx3 "Ordered" "p1" "o1").1 = false ∧
       (update_status dbEx3 "Ordered" "p1" "o1").2 = dbEx3) := by
  decide

/-- C3 (amended): only `update_part_status` validates the requested
transition against the part state machine before applying, returning
`False` without modification when the transition is illegal or the
`(order_number, vendor_part_number)` pair does not exist; `update_status`
performs no validation: it sets the status of the matching part
unconditionally and returns `True` exactly when the pair exists,
returning `False` (with nothing modified) only when it does not. -/
theorem C3_amended (db : DB) (onum vpn ns : String) :
    (db.parts.find? (fun q => q.orderNumber == onum && q.vendorPartNumber == vpn) = none →
      update_part_status db onum vpn ns = (false, db)) ∧
    (∀ p, db.parts.find? (fun q => q.orderNumber == onum && q.vendorPartNumber == vpn) = some p →
      ns ∉ valid_status_transitions p.status →
      update_part_status db onum vpn ns = (false, db)) ∧
    (((update_status db ns vpn onum).1 = true) ↔
      ∃ p ∈ db.parts, p.vendorPartNumber = vpn ∧ p.orderNumber = onum) ∧
    ((update_status db ns vpn onum).2.parts =
      db.parts.map (fun p =>
        if p.vendorPartNumber == vpn && p.orderNumber == onum then
          { p with status := ns } else p)) ∧
    ((¬ ∃ p ∈ db.parts, p.vendorPartNumber = vpn ∧ p.orderNumber = onum) →
      update_status db ns vpn onum = (false, db)) := by
  refine ⟨?_, ?_, ?_, rfl, ?_⟩
  · intro hf
    simp only [update_part_status, hf]
  · intro p hf hm
    simp only [update_part_status, hf, if_neg hm]
  · simp only [update_status, gt_iff_lt, decide_eq_true_eq, List.length_pos,
      ne_eq, List.filter_eq_nil_iff, Bool.and_eq_true, beq_iff_eq, not_forall]
    constructor
    · rintro ⟨p, hp, hcond⟩
      exact ⟨p, hp, by tauto⟩
    · rintro ⟨p, hp, h1, h2⟩
      exact ⟨p, hp, by tauto⟩
  · intro hne
    have hnil : db.parts.filter
        (fun p => p.vendorPartNumber == vpn && p.orderNumber == onum) = [] := by
      rw [List.filter_eq_nil_iff]
      intro p hp
      simp only [Bool.and_eq_true, beq_iff_eq, not_and]
      intro h1 h2
      exact hne ⟨p, hp, h1, h2⟩
    have hmap : db.parts.map (fun p =>
        if p.vendorPartNumber == vpn && p.orderNumber == onum then
          { p with status := ns } else p) = db.parts := by
      apply List.map_congr_left ?_ |>.trans (List.map_id db.parts)
      intro p hp
      have : ¬ (p.vendorPartNumber = vpn ∧ p.orderNumber = onum) :=
        fun h => hne ⟨p, hp, h.1, h.2⟩
      have hcond : (p.vendorPartNumber == vpn && p.orderNumber == onum) = false := by
        simp only [Bool.and_eq_false_iff, bne_iff_ne, ne_eq, beq_eq_false_iff_ne]
        tauto
      rw [hcond]
      simp
    simp only [update_status, hnil, hmap]
    rfl

/-- C3 witness: `update_part_status` rejects Installed→Received and
leaves the database unchanged; `update_status` on the same part and
status returns `True`; `update_status` on a missing pair returns `False`
unchanged. -/
theorem C3_witness :
    update_part_status dbEx3 "o1" "p1" "Received" = (false, dbEx3) ∧
    (update_status dbEx3 "Received" "p1" "o1").1 = true ∧
    update_status dbEx3 "Received" "p9" "o9" = (false, dbEx3) := by
  refine ⟨?_, ?_, ?_⟩
  · exact (C3_amended dbEx3 "o1" "p1" "Received").2.1 pEx3 rfl (by decide)
  · exact ((C3_amended dbEx3 "o1" "p1" "Received").2.2.1).mpr ⟨pEx3, by decide, rfl, rfl⟩
  · exact (C3_amended dbEx3 "o9" "p9" "Received").2.2.2.2 (by decide)

theorem search_rows_mem {db : DB} {vt mf : Option String} {yr : Option YearArg}
    {ft cl kw vn vs : Option String} {role : String} {rc : RoleClause}
    (hrc : roleClause role vs = some rc) {pr : Projection} {rows : List Row}
    (hok : search_vehicles db vt mf yr ft cl kw vn vs role = (pr, rows)) (r : Row) :
    r ∈ rows ↔ ∃ v ∈ db.vehicles,
      (roleClauseOk db rc v.vin && matchesFilters db vt mf yr ft cl kw vn v) = true ∧
      r = rowOf db v := by
  unfold search_vehicles at hok
  rw [hrc] at hok
  simp only [Prod.mk.injEq] at hok
  rcases hok with ⟨-, hrows⟩
  rw [← hrows, mem_sortKey, List.mem_map]
  constructor
  · rintro ⟨v, hv, rfl⟩
    rcases List.mem_filter.mp hv with ⟨hv, hcond⟩
    exact ⟨v, hv, hcond, rfl⟩
  · rintro ⟨v, hv, hcond, rfl⟩
    exact ⟨v, List.mem_filter.mpr ⟨hv, hcond⟩, rfl⟩

theorem hasSaleB_eq_false_iff {db : DB} {vin : String} :
    hasSaleB db vin = false ↔ ∀ s ∈ db.sales, s.vin ≠ vin := by
  simp [hasSaleB]

theorem hasPendingPartsB_eq_false_iff {db : DB} {vin : String} :
    hasPendingPartsB db vin = false ↔
      ∀ po ∈ db.partsOrders, po.vin = vin →
        ∀ p ∈ db.parts, p.orderNumber = po.orderNumber → p.status = "Installed" := by
  simp only [hasPendingPartsB, Bool.eq_false_iff, ne_eq, List.any_eq_true,
    Bool.and_eq_true, beq_iff_eq, bne_iff_ne, not_exists, not_and]
  aesop

theorem hasSaleB_eq_true_iff {db : DB} {vin : String} :
    hasSaleB db vin = true ↔ ∃ s ∈ db.sales, s.vin = vin := by
  simp [hasSaleB]

/-- C4: for role `Public` (and likewise `Salesperson`), under every choice
of filters, no result row's vehicle has a `SaleTransaction` row, and no
result row's vehicle has an associated `Part` (through one of its
`PartsOrder` rows) whose status is not `Installed`. -/
theorem C4_public_visibility {db : DB} {vt mf : Option String} {yr : Option YearArg}
    {ft cl kw vn vs : Option String} {role : String}
    (hrole : role = "Public" ∨ role = "Salesperson")
    {pr : Projection} {rows : List Row}
    (hok : search_vehicles db vt mf yr ft cl kw vn vs role = (pr, rows)) :
    ∀ r ∈ rows,
      (∀ s ∈ db.sales, s.vin ≠ r.vin) ∧
      (∀ po ∈ db.partsOrders, po.vin = r.vin →
        ∀ p ∈ db.parts, p.orderNumber = po.orderNumber → p.status = "Installed") := by
  have hrc : roleClause role vs = some .unsoldNoPending := by
    rcases hrole with rfl | rfl <;> rfl
  intro r hr
  rcases (search_rows_mem hrc hok r).mp hr with ⟨v, -, hcond, rfl⟩
  rcases Bool.and_eq_true_iff.mp hcond with ⟨hrc', -⟩
  rcases Bool.and_eq_true_iff.mp hrc' with ⟨hsale, hpend⟩
  have hvin : (rowOf db v).vin = v.vin := rfl
  rw [hvin]
  constructor
  · exact hasSaleB_eq_false_iff.mp (by simpa using hsale)
  · exact hasPendingPartsB_eq_false_iff.mp (by simpa using hpend)

def dbEx4 : DB :=
  ⟨[⟨"V1", "SUV", "Honda", "CRV", 2020, "Gas", 190, "Good", "d"⟩,
    ⟨"V2", "SUV", "Honda", "CRV", 2021, "Gas", 190, "Good", "d"⟩,
    ⟨"V3", "SUV", "Honda", "CRV", 2022, "Gas", 190, "Good", "d"⟩],
   ["SUV"], [], [⟨"V2", "c", "u", 5, 9000⟩],
   [⟨"V1", "c", "u", 0, 1000⟩, ⟨"V2", "c", "u", 0, 2000⟩, ⟨"V3", "c", "u", 0, 3000⟩],
   [⟨"V3", "Acme", "V3-001", 50⟩],
   [⟨"V3-001", "p1", "d", 1, "Ordered", 50⟩]⟩

/-- C4 witness: in a database with a sold vehicle `V2` and a vehicle `V3`
with a pending part, the Public search returns only `V1`, whose vehicle is
unsold with all parts installed. -/
theorem C4_witness :
    search_vehicles dbEx4 none none none none none none none none "Public" =
      (.publicCols, [rowOf dbEx4 ⟨"V1", "SUV", "Honda", "CRV", 2020, "Gas", 190, "Good", "d"⟩]) ∧
    (∀ s ∈ dbEx4.sales, s.vin ≠ (rowOf dbEx4 ⟨"V1", "SUV", "Honda", "CRV", 2020, "Gas", 190, "Good", "d"⟩).vin) := by
  refine ⟨rfl, ?_⟩
  exact ((@C4_public_visibility dbEx4 none none none none none none none none
      "Public" (Or.inl rfl) .publicCols
      [rowOf dbEx4 ⟨"V1", "SUV", "Honda", "CRV", 2020, "Gas", 190, "Good", "d"⟩] rfl)
    (rowOf dbEx4 ⟨"V1", "SUV", "Honda", "CRV", 2020, "Gas", 190, "Good", "d"⟩)
    (List.mem_singleton.mpr rfl)).1

/-- C5: for role `Owner` (or `Manager`) with `vehicle_status = "Sold"` and
no other filters, the result's VINs are exactly the VINs having a
`SaleTransaction` row — every such VIN appears (given referential
integrity of `SaleTransaction.vin` into `Vehicle`) and no VIN without one
appears — regardless of the status of any associated parts. -/
theorem C5_sold_exactly {db : DB} {role : String}
    (hrole : role = "Owner" ∨ role = "Manager")
    (hFK : ∀ s ∈ db.sales, ∃ v ∈ db.vehicles, v.vin = s.vin)
    {pr : Projection} {rows : List Row}
    (hok : search_vehicles db none none none none none none none (some "Sold") role =
      (pr, rows)) :
    ∀ vin, (∃ r ∈ rows, r.vin = vin) ↔ ∃ s ∈ db.sales, s.vin = vin := by
  have hrc : roleClause role (some "Sold") = some .sold := by
    rcases hrole with rfl | rfl <;> rfl
  intro vin
  constructor
  · rintro ⟨r, hr, rfl⟩
    rcases (search_rows_mem hrc hok r).mp hr with ⟨v, hv, hcond, rfl⟩
    rcases Bool.and_eq_true_iff.mp hcond with ⟨hsold, -⟩
    have hsale : hasSaleB db v.vin = true := by simpa [roleClauseOk] using hsold
    exact hasSaleB_eq_true_iff.mp hsale
  · rintro ⟨s, hs, rfl⟩
    rcases hFK s hs with ⟨v, hv, hvin⟩
    refine ⟨rowOf db v, ?_, hvin⟩
    refine (search_rows_mem hrc hok (rowOf db v)).mpr ⟨v, hv, ?_, rfl⟩
    have hsale : hasSaleB db v.vin = true :=
      hasSaleB_eq_true_iff.mpr ⟨s, hs, hvin.symm⟩
    simp [roleClauseOk, hsale, matchesFilters_none]

def vEx5 : Vehicle := ⟨"V2", "SUV", "Honda", "CRV", 2021, "Gas", 190, "Good", "d"⟩

def dbEx5 : DB :=
  ⟨[⟨"V1", "SUV", "Honda", "CRV", 2020, "Gas", 190, "Good", "d"⟩, vEx5],
   ["SUV"], [], [⟨"V2", "c", "u", 5, 9000⟩],
   [⟨"V1", "c", "u", 0, 1000⟩, ⟨"V2", "c", "u", 0, 2000⟩],
   [⟨"V2", "Acme", "V2-001", 50⟩],
   [⟨"V2-001", "p1", "d", 1, "Ordered", 50⟩]⟩

/-- C5 witness: with sold vehicle `V2` (which still has a pending part)
and unsold `V1`, the Owner "Sold" search returns exactly `V2`. -/
theorem C5_witness :
    ((∃ r ∈ [rowOf dbEx5 vEx5], r.vin = "V2") ↔ ∃ s ∈ dbEx5.sales, s.vin = "V2") ∧
    ((∃ r ∈ [rowOf dbEx5 vEx5], r.vin = "V1") ↔ ∃ s ∈ dbEx5.sales, s.vin = "V1") := by
  constructor
  · exact @C5_sold_exactly dbEx5 "Owner" (Or.inl rfl) (by decide) .allCols
      [rowOf dbEx5 vEx5] rfl "V2"
  · exact @C5_sold_exactly dbEx5 "Owner" (Or.inl rfl) (by decide) .allCols
      [rowOf dbEx5 vEx5] rfl "V1"

theorem add_parts_order_success (db : DB) (vin vendor_name : String)
    (parts : List PartInput)
    (hfresh : ∀ po ∈ db.partsOrders, po.orderNumber ≠
      vin ++ "-" ++ zfill 3 (toString ((db.partsOrders.filter (fun po => po.vin == vin)).length + 1)))
    (hnodup : (parts.map PartInput.vendor_part_number).Nodup) :
    add_parts_order db vin vendor_name parts =
      (true, { db with
        partsOrders := db.partsOrders ++
          [{ vin := vin, vendorName := vendor_name,
             orderNumber := vin ++ "-" ++
               zfill 3 (toString ((db.partsOrders.filter (fun po => po.vin == vin)).length + 1)),
             totalCost := round2 ((parts.map (fun p => p.unit_price * (p.quantity : ℚ))).sum) }]
        parts := db.parts ++ parts.map (fun p =>
          { orderNumber := vin ++ "-" ++
              zfill 3 (toString ((db.partsOrders.filter (fun po => po.vin == vin)).length + 1)),
            vendorPartNumber := p.vendor_part_number,
            description := p.part_description,
            quantity := p.quantity,
            status := p.part_status,
            unitPrice := p.unit_price }) }) := by
  have hany : db.partsOrders.any (fun po => po.orderNumber ==
      vin ++ "-" ++ zfill 3 (toString ((db.partsOrders.filter (fun po => po.vin == vin)).length + 1))) = false := by
    rw [List.any_eq_false]
    intro po hpo
    simpa using hfresh po hpo
  simp only [add_parts_order, hany, hnodup, Bool.false_or]
  simp

/-- C6: `add_parts_order` assigns order number `{VIN}-{n}` with `n` the
count of the VIN's existing `PartsOrder` rows plus one, zero-padded to
three digits — `{VIN}-001` on a first order, `{VIN}-002` on a second —
with the inserted order's `total_cost` equal to
`round(Σ unit_price × quantity, 2)`; a raising insert (duplicate primary
key) makes it return `False` with the database unchanged. -/
theorem C6_add_parts_order (db : DB) (vin vendor_name : String) (parts : List PartInput) :
    (((db.partsOrders.filter (fun po => po.vin == vin)).length = 0) →
      (∀ po ∈ db.partsOrders, po.orderNumber ≠ vin ++ "-001") →
      (parts.map PartInput.vendor_part_number).Nodup →
      add_parts_order db vin vendor_name parts =
        (true, { db with
          partsOrders := db.partsOrders ++
            [{ vin := vin, vendorName := vendor_name, orderNumber := vin ++ "-001",
               totalCost := round2 ((parts.map (fun p => p.unit_price * (p.quantity : ℚ))).sum) }]
          parts := db.parts ++ parts.map (fun p =>
            { orderNumber := vin ++ "-001", vendorPartNumber := p.vendor_part_number,
              description := p.part_description, quantity := p.quantity,
              status := p.part_status, unitPrice := p.unit_price }) })) ∧
    (((db.partsOrders.filter (fun po => po.vin == vin)).length = 1) →
      (∀ po ∈ db.partsOrders, po.orderNumber ≠ vin ++ "-002") →
      (parts.map PartInput.vendor_part_number).Nodup →
      add_parts_order db vin vendor_name parts =
        (true, { db with
          partsOrders := db.partsOrders ++
            [{ vin := vin, vendorName := vendor_name, orderNumber := vin ++ "-002",
               totalCost := round2 ((parts.map (fun p => p.unit_price * (p.quantity : ℚ))).sum) }]
          parts := db.parts ++ parts.map (fun p =>
            { orderNumber := vin ++ "-002", vendorPartNumber := p.vendor_part_number,
              description := p.part_description, quantity := p.quantity,
              status := p.part_status, unitPrice := p.unit_price }) })) ∧
    (∀ db', add_parts_order db vin vendor_name parts = (true, db') →
      (db'.partsOrders.filter (fun po => po.vin == vin)).length =
        (db.partsOrders.filter (fun po => po.vin == vin)).length + 1) ∧
    ((db.partsOrders.any (fun po => po.orderNumber ==
        vin ++ "-" ++ zfill 3 (toString ((db.partsOrders.filter (fun po => po.vin == vin)).length + 1))) = true ∨
      ¬ (parts.map PartInput.vendor_part_number).Nodup) →
      add_parts_order db vin vendor_name parts = (false, db)) := by
  refine ⟨?_, ?_, ?_, ?_⟩
  · intro hcount hfresh hnodup
    have h := add_parts_order_success db vin vendor_name parts ?_ hnodup
    · rw [h, hcount]
      rw [show zfill 3 (toString (0 + 1)) = "001" from rfl, String.append_assoc]
      rfl
    · rw [hcount]
      rw [show zfill 3 (toString (0 + 1)) = "001" from rfl, String.append_assoc]
      exact hfresh
  · intro hcount hfresh hnodup
    have h := add_parts_order_success db vin vendor_name parts ?_ hnodup
    · rw [h, hcount]
      rw [show zfill 3 (toString (1 + 1)) = "002" from rfl, String.append_assoc]
      rfl
    · rw [hcount]
      rw [show zfill 3 (toString (1 + 1)) = "002" from rfl, String.append_assoc]
      exact hfresh
  · intro db' h
    unfold add_parts_order at h
    set cond := (db.partsOrders.any (fun po => po.orderNumber ==
        vin ++ "-" ++ zfill 3 (toString ((db.partsOrders.filter (fun po => po.vin == vin)).length + 1))) ||
      !(parts.map PartInput.vendor_part_number).Nodup) with hcond
    by_cases hc : cond = true
    · rw [if_pos hc] at h
      simp at h
    · rw [if_neg hc] at h
      have hdb' : db' = { db with
          partsOrders := db.partsOrders ++
            [{ vin := vin, vendorName := vendor_name,
               orderNumber := vin ++ "-" ++
                 zfill 3 (toString ((db.partsOrders.filter (fun po => po.vin == vin)).length + 1)),
               totalCost := round2 ((parts.map (fun p => p.unit_price * (p.quantity : ℚ))).sum) }]
          parts := db.parts ++ parts.map (fun p =>
            { orderNumber := vin ++ "-" ++
                zfill 3 (toString ((db.partsOrders.filter (fun po => po.vin == vin)).length + 1)),
              vendorPartNumber := p.vendor_part_number,
              description := p.part_description,
              quantity := p.quantity,
              status := p.part_status,
              unitPrice := p.unit_price }) } := (congrArg Prod.snd h).symm
      subst hdb'
      simp
  · intro hdup
    unfold add_parts_order
    rcases hdup with hdup | hdup
    · rw [if_pos (by simp [hdup])]
    · rw [if_pos (by simp [hdup])]

def dbEx6 : DB :=
  ⟨[⟨"V1", "SUV", "Honda", "CRV", 2020, "Gas", 190, "Good", "d"⟩],
   ["SUV"], [], [], [⟨"V1", "c", "u", 0, 1000⟩], [], []⟩

def partsEx6 : List PartInput := [⟨"p1", "widget", 2, "Ordered", 10⟩]

def dbEx6' : DB :=
  { dbEx6 with
    partsOrders := [⟨"V1", "Acme", "V1-001", 20⟩]
    parts := [⟨"V1-001", "p1", "widget", 2, "Ordered", 10⟩] }

/-- C6 witness: a first order for `V1` (one part, 2 × $10) is inserted as
`V1-001` with total cost `round(20, 2) = 20`; a second call on the
resulting database is inserted as `V1-002`. -/
theorem C6_witness :
    add_parts_order dbEx6 "V1" "Acme" partsEx6 = (true, dbEx6') ∧
    (add_parts_order dbEx6' "V1" "Acme" partsEx6).2.partsOrders =
      [⟨"V1", "Acme", "V1-001", 20⟩, ⟨"V1", "Acme", "V1-002", 20⟩] := by
  have hcost : round2 ((partsEx6.map (fun p => p.unit_price * (p.quantity : ℚ))).sum) = 20 := by
    simp only [partsEx6, List.map_cons, List.map_nil, List.sum_cons, List.sum_nil]
    norm_num [round2, Rat.floor]
  constructor
  · have h := (C6_add_parts_order dbEx6 "V1" "Acme" partsEx6).1 rfl
      (by decide) (by decide)
    rw [h]
    simp only [hcost]
    rfl
  · have h := (C6_add_parts_order dbEx6' "V1" "Acme" partsEx6).2.1 rfl
      (by decide) (by decide)
    rw [h]
    simp only [hcost]
    rfl

theorem search_vehicles_congr (db : DB)
    (vt1 vt2 mf1 mf2 : Option String) (yr1 yr2 : Option YearArg)
    (ft1 ft2 cl1 cl2 kw1 kw2 vn1 vn2 vs : Option String) (role : String)
    (hmatch : ∀ v, matchesFilters db vt1 mf1 yr1 ft1 cl1 kw1 vn1 v =
      matchesFilters db vt2 mf2 yr2 ft2 cl2 kw2 vn2 v)
    (happ : anyFilterApplied vt1 mf1 yr1 ft1 cl1 kw1 vn1 =
      anyFilterApplied vt2 mf2 yr2 ft2 cl2 kw2 vn2) :
    search_vehicles db vt1 mf1 yr1 ft1 cl1 kw1 vn1 vs role =
      search_vehicles db vt2 mf2 yr2 ft2 cl2 kw2 vn2 vs role := by
  unfold search_vehicles
  rcases hrc : roleClause role vs with _ | rc
  · simp only [hrc]
    rw [happ]
    have hfun : (fun v => rowOfMigrated db
          (matchesFilters db vt1 mf1 yr1 ft1 cl1 kw1 vn1 v) v) =
        (fun v => rowOfMigrated db
          (matchesFilters db vt2 mf2 yr2 ft2 cl2 kw2 vn2 v) v) :=
      funext fun v => by rw [hmatch v]
    rw [hfun]
  · simp only [hrc]
    have hfun : (fun v => roleClauseOk db rc v.vin &&
          matchesFilters db vt1 mf1 yr1 ft1 cl1 kw1 vn1 v) =
        (fun v => roleClauseOk db rc v.vin &&
          matchesFilters db vt2 mf2 yr2 ft2 cl2 kw2 vn2 v) :=
      funext fun v => by rw [hmatch v]
    rw [hfun]

/-- C7: for every database, role and filter assignment, setting an
optional equality filter (vehicle_type, manufacturer, year, fuel_type,
color) to the sentinel `"Any"` yields exactly the result of leaving it
absent (`None`): the sentinel contributes no predicate, and absent
filters are omitted from the query. -/
theorem C7_any_equals_absent (db : DB) (vt mf : Option String) (yr : Option YearArg)
    (ft cl kw vn vs : Option String) (role : String) :
    (search_vehicles db (some "Any") mf yr ft cl kw vn vs role =
      search_vehicles db none mf yr ft cl kw vn vs role) ∧
    (search_vehicles db vt (some "Any") yr ft cl kw vn vs role =
      search_vehicles db vt none yr ft cl kw vn vs role) ∧
    (search_vehicles db vt mf (some .any) ft cl kw vn vs role =
      search_vehicles db vt mf none ft cl kw vn vs role) ∧
    (search_vehicles db vt mf yr (some "Any") cl kw vn vs role =
      search_vehicles db vt mf yr none cl kw vn vs role) ∧
    (search_vehicles db vt mf yr ft (some "Any") kw vn vs role =
      search_vehicles db vt mf yr ft none kw vn vs role) := by
  refine ⟨?_, ?_, ?_, ?_, ?_⟩
  · exact search_vehicles_congr db (some "Any") none mf mf yr yr ft ft cl cl kw kw vn vn vs role
      (fun v => by simp [matchesFilters, strFilterOk_any, strFilterOk_none])
      (by simp [anyFilterApplied, strFilterApplies_any, strFilterApplies_none])
  · exact search_vehicles_congr db vt vt (some "Any") none yr yr ft ft cl cl kw kw vn vn vs role
      (fun v => by simp [matchesFilters, strFilterOk_any, strFilterOk_none])
      (by simp [anyFilterApplied, strFilterApplies_any, strFilterApplies_none])
  · exact search_vehicles_congr db vt vt mf mf (some .any) none ft ft cl cl kw kw vn vn vs role
      (fun v => by simp [matchesFilters, yearFilterOk_any, yearFilterOk_none])
      (by simp [anyFilterApplied, yearFilterApplies])
  · exact search_vehicles_congr db vt vt mf mf yr yr (some "Any") none cl cl kw kw vn vn vs role
      (fun v => by simp [matchesFilters, strFilterOk_any, strFilterOk_none])
      (by simp [anyFilterApplied, strFilterApplies_any, strFilterApplies_none])
  · exact search_vehicles_congr db vt vt mf mf yr yr ft ft (some "Any") none kw kw vn vn vs role
      (fun v => by simp [matchesFilters, colorFilterOk_any, colorFilterOk_none])
      (by simp [anyFilterApplied, strFilterApplies_any, strFilterApplies_none])

theorem filterMap_eq_map_filter {α β : Type} (l : List α) (F : α → Option β)
    (q : α → Bool) (g : α → β)
    (h : ∀ v ∈ l, (q v = true → F v = some (g v)) ∧ (q v = false → F v = none)) :
    l.filterMap F = (l.filter q).map g := by
  induction l with
  | nil => rfl
  | cons a l ih =>
    have ha := h a (List.mem_cons_self a l)
    have ih' := ih (fun v hv => h v (List.mem_cons_of_mem a hv))
    cases hq : q a
    · rw [List.filterMap_cons, ha.2 hq, List.filter_cons_of_neg (by simp [hq]), ih']
    · rw [List.filterMap_cons, ha.1 hq, List.filter_cons_of_pos (by simp [hq]),
        List.map_cons, ih']

/-- The day count reported for one sold vehicle:
`DATEDIFF(st.sold_on, pt.purchased_on) + 1`, read through the VIN's
unique sale and purchase rows. -/
def inventoryDays (db : DB) (v : Vehicle) : ℚ :=
  ((((db.sales.find? (fun s => s.vin == v.vin)).map SaleTransaction.soldOn).getD 0 -
    ((db.purchases.find? (fun p => p.vin == v.vin)).map PurchaseTransaction.purchasedOn).getD 0
    + 1 : ℤ) : ℚ)

theorem soldFilter_eq (db : DB) (t : String) :
    (db.vehicles.filter (fun v => v.vehicleType == t)).filter
        (fun v => hasSaleB db v.vin) =
      db.vehicles.filter (fun v => v.vehicleType == t && hasSaleB db v.vin) := by
  rw [List.filter_filter]
  exact List.filter_congr (fun v _ => Bool.and_comm _ _)

theorem avtDays_eq (db : DB) (t : String)
    (hsp : ∀ v ∈ db.vehicles, hasSaleB db v.vin = true →
      (db.purchases.find? (fun p => p.vin == v.vin)).isSome = true) :
    avtDays db t =
      (db.vehicles.filter (fun v => v.vehicleType == t && hasSaleB db v.vin)).map
        (inventoryDays db) := by
  rw [avtDays, ← soldFilter_eq]
  apply filterMap_eq_map_filter
  intro v hv
  have hv' : v ∈ db.vehicles := (List.mem_filter.mp hv).1
  constructor
  · intro hsale
    have hfs : (db.sales.find? (fun s => s.vin == v.vin)).isSome = true := by
      rw [List.find?_isSome]
      simpa [hasSaleB, List.any_eq_true] using hsale
    rcases Option.isSome_iff_exists.mp hfs with ⟨s, hs⟩
    rcases Option.isSome_iff_exists.mp (hsp v hv' hsale) with ⟨p, hp⟩
    rw [hs, hp]
    simp [inventoryDays, hs, hp]
  · intro hsale
    have hfs : db.sales.find? (fun s => s.vin == v.vin) = none := by
      rw [List.find?_eq_none]
      intro s hs
      by_contra hvin
      have : hasSaleB db v.vin = true := by
        rw [hasSaleB, List.any_eq_true]
        exact ⟨s, hs, by simpa using hvin⟩
      simp [this] at hsale
    rw [hfs]

theorem avtSoldCount_eq (db : DB) (t : String) :
    avtSoldCount db t =
      (db.vehicles.filter (fun v => v.vehicleType == t && hasSaleB db v.vin)).length := by
  rw [avtSoldCount, soldFilter_eq]

/-- C8: `average_inventory_time_report` returns one row per vehicle type
occurring in the data (registered in `VehicleType` and borne by at least
one vehicle), sorted ascending by type name; a type with at least one
sold vehicle reports the mean over its sold vehicles of (days between
purchase and sale + 1) rounded to 2 decimals — unsold vehicles of the
type do not enter the mean — and a type with zero sold vehicles reports
the sentinel `'N/A'` (`AvtVal.na`) instead of a number.  The vehicles of
a sold type are assumed to carry purchase rows (the add-flow creates a
vehicle together with its `PurchaseTransaction`). -/
theorem C8_average_inventory_time (db : DB)
    (hsp : ∀ v ∈ db.vehicles, hasSaleB db v.vin = true →
      (db.purchases.find? (fun p => p.vin == v.vin)).isSome = true) :
    List.Pairwise (fun a b => a ≤ b) ((average_inventory_time_report db).map Prod.fst) ∧
    ((average_inventory_time_report db).map Prod.fst).Nodup ∧
    (∀ t, t ∈ (average_inventory_time_report db).map Prod.fst ↔
      (t ∈ db.vehicleTypes ∧ ∃ v ∈ db.vehicles, v.vehicleType = t)) ∧
    (∀ t x, (t, x) ∈ average_inventory_time_report db →
      ((¬ ∃ v ∈ db.vehicles, v.vehicleType = t ∧ hasSaleB db v.vin = true) → x = .na) ∧
      ((∃ v ∈ db.vehicles, v.vehicleType = t ∧ hasSaleB db v.vin = true) →
        x = .val (round2
          (((db.vehicles.filter (fun v => v.vehicleType == t && hasSaleB db v.vin)).map
              (inventoryDays db)).sum /
            ((db.vehicles.filter (fun v => v.vehicleType == t && hasSaleB db v.vin)).length
              : ℚ))))) := by
  have hfst : (average_inventory_time_report db).map Prod.fst = sortKey id (avtTypes db) := by
    rw [average_inventory_time_report, List.map_map]
    rw [show (Prod.fst ∘ fun t => (t, avtValue db t)) = id from rfl, List.map_id]
  have hcount : ∀ t, (avtSoldCount db t = 0) ↔
      ¬ ∃ v ∈ db.vehicles, v.vehicleType = t ∧ hasSaleB db v.vin = true := by
    intro t
    rw [avtSoldCount_eq, List.length_eq_zero, List.filter_eq_nil_iff]
    constructor
    · rintro h ⟨v, hv, ht, hs⟩
      exact h v hv (by simp [ht, hs])
    · intro h v hv hcond
      rcases Bool.and_eq_true_iff.mp hcond with ⟨ht, hs⟩
      exact h ⟨v, hv, by simpa using ht, hs⟩
  refine ⟨?_, ?_, ?_, ?_⟩
  · rw [hfst]
    exact pairwise_sortKey id (avtTypes db)
  · rw [hfst]
    exact ((perm_sortKey id (avtTypes db)).nodup_iff).mpr (List.nodup_dedup _)
  · intro t
    rw [hfst, mem_sortKey]
    simp [avtTypes, List.mem_dedup, List.mem_filter, List.any_eq_true]
  · intro t x hmem
    have hx : x = avtValue db t := by
      rw [average_inventory_time_report] at hmem
      rcases List.mem_map.mp hmem with ⟨t', -, heq⟩
      rcases Prod.mk.injEq .. ▸ heq with ⟨rfl, hx⟩
      exact hx.symm
    constructor
    · intro hno
      rw [hx, avtValue, if_pos ((hcount t).mpr hno)]
    · intro hyes
      have hc0 : ¬ avtSoldCount db t = 0 := fun h => ((hcount t).mp h) hyes
      rw [hx, avtValue, if_neg hc0]
      have hdays := avtDays_eq db t hsp
      have hlen : (avtDays db t).length =
          (db.vehicles.filter (fun v => v.vehicleType == t && hasSaleB db v.vin)).length := by
        rw [hdays, List.length_map]
      have hne : avtDays db t ≠ [] := by
        intro hnil
        rw [hnil] at hlen
        exact hc0 (by rw [avtSoldCount_eq, ← hlen]; rfl)
      rcases hd : avtDays db t with _ | ⟨a, ds⟩
      · exact absurd hd hne
      · have hd' : (db.vehicles.filter
            (fun v => v.vehicleType == t && hasSaleB db v.vin)).map (inventoryDays db) =
            a :: ds := by
          rw [← hdays]
          exact hd
        have hlen' : (db.vehicles.filter
            (fun v => v.vehicleType == t && hasSaleB db v.vin)).length =
            (a :: ds).length := by
          rw [← hd', List.length_map]
        rw [hd', hlen']

def dbEx8 : DB :=
  ⟨[⟨"V1", "SUV", "Honda", "CRV", 2020, "Gas", 190, "Good", "d"⟩,
    ⟨"V2", "Sedan", "Honda", "Civic", 2021, "Gas", 150, "Good", "d"⟩,
    ⟨"V3", "SUV", "Ford", "Edge", 2019, "Gas", 200, "Fair", "d"⟩],
   ["SUV", "Sedan"], [], [⟨"V1", "c", "u", 4, 9000⟩],
   [⟨"V1", "c", "u", 0, 1000⟩, ⟨"V2", "c", "u", 0, 2000⟩, ⟨"V3", "c", "u", 0, 3000⟩],
   [], []⟩

/-- C8 witness: `SUV` has one sold vehicle (purchased day 0, sold day 4,
so 5 inventory days) and one unsold vehicle; `Sedan` has only an unsold
vehicle, reporting `'N/A'`. -/
theorem C8_witness :
    ((average_inventory_time_report dbEx8).map Prod.fst).Nodup ∧
    (∀ x, ("Sedan", x) ∈ average_inventory_time_report dbEx8 → x = .na) ∧
    (∀ x, ("SUV", x) ∈ average_inventory_time_report dbEx8 →
      x = .val (round2
        (((dbEx8.vehicles.filter
            (fun v => v.vehicleType == "SUV" && hasSaleB dbEx8 v.vin)).map
              (inventoryDays dbEx8)).sum /
          ((dbEx8.vehicles.filter
            (fun v => v.vehicleType == "SUV" && hasSaleB dbEx8 v.vin)).length : ℚ)))) := by
  have h := C8_average_inventory_time dbEx8 (by decide)
  refine ⟨h.2.1, ?_, ?_⟩
  · intro x hx
    exact ((h.2.2.2 "Sedan" x hx).1) (by decide)
  · intro x hx
    exact ((h.2.2.2 "SUV" x hx).2) (by decide)

def dbEx9 : DB :=
  ⟨[⟨"V1", "SUV", "Honda", "CRV", 2020, "Gas", 190, "Good", "d"⟩,
    ⟨"V2", "Sedan", "Honda", "Civic", 2021, "Gas", 150, "Good", "d"⟩],
   ["SUV", "Sedan"], [], [⟨"V2", "c", "u", 5, 9000⟩],
   [⟨"V1", "c", "u", 0, 1000⟩, ⟨"V2", "c", "u", 0, 2000⟩], [], []⟩

/-- C9 counterexample: with the unknown role `"Guest"` and the applied
filter `vehicle_type = "SUV"`, execution does not raise: the appended
clause extends the parts aggregate's `ON` condition, the query is valid,
and it returns a row set containing every vehicle — including the
non-matching, sold `V2` — with the full projection, contradicting the
claim that the generated SQL is malformed and execution raises rather
than returning a row set. -/
theorem C9_counterexample :
    (search_vehicles dbEx9 (some "SUV") none none none none none none none "Guest").2.map
      Row.vin = ["V1", "V2"] ∧
    (search_vehicles dbEx9 (some "SUV") none none none none none none none "Guest").1 =
      .allCols := by
  with_unfolding_all decide

/-- C9 (amended): for a role outside the enumeration {Public,
Salesperson, Inventory clerk, Manager, Owner} no role-based `WHERE`
clause is appended at all: with no applied filter the query is
well-formed and unrestricted, returning every vehicle — sold and unsold —
with the full unprojected column set (including `PurchasePrice` and
`TotalPartsCost`); with applied filters the `" AND ..."` clauses extend
the parts aggregate `LEFT JOIN`'s `ON` condition, so the query is still
valid SQL: it executes with the full projection, still returns exactly
one row per vehicle (the filters do not restrict the row set), and only
suppresses the parts aggregate — `TotalPartsCost` reported as
`ROUND(0, 2)` and, on an unsold purchased vehicle, `SalePrice` falling
back to `ROUND(1.25·purchase_price + 1.1·0, 2)` — where the migrated
condition fails. -/
theorem C9_amended (db : DB) (vt mf : Option String) (yr : Option YearArg)
    (ft cl kw vn vs : Option String) (role : String)
    (hrole : role ∉ ["Public", "Salesperson", "Inventory clerk", "Manager", "Owner"]) :
    (anyFilterApplied vt mf yr ft cl kw vn = false →
      search_vehicles db vt mf yr ft cl kw vn vs role =
        (.allCols, sortKey Row.vin (db.vehicles.map (rowOf db))) ∧
      "PurchasePrice" ∈ projectedColumns .allCols ∧
      "TotalPartsCost" ∈ projectedColumns .allCols) ∧
    (anyFilterApplied vt mf yr ft cl kw vn = true →
      (search_vehicles db vt mf yr ft cl kw vn vs role).1 = .allCols ∧
      (search_vehicles db vt mf yr ft cl kw vn vs role).2.length = db.vehicles.length ∧
      (∀ vin, vin ∈ (search_vehicles db vt mf yr ft cl kw vn vs role).2.map Row.vin ↔
        vin ∈ db.vehicles.map Vehicle.vin) ∧
      (∀ r ∈ (search_vehicles db vt mf yr ft cl kw vn vs role).2,
        ∃ v ∈ db.vehicles,
          r = rowOfMigrated db (matchesFilters db vt mf yr ft cl kw vn v) v ∧
          r.vin = v.vin ∧
          (matchesFilters db vt mf yr ft cl kw vn v = false →
            r.totalPartsCost = round2 0 ∧
            (db.sales.find? (fun x => x.vin == v.vin) = none →
              ∀ p, db.purchases.find? (fun x => x.vin == v.vin) = some p →
                r.salePrice = some (round2
                  ((1.25 : ℚ) * p.purchasePrice + (1.1 : ℚ) * 0)))))) := by
  simp only [List.mem_cons, List.mem_singleton, not_or, List.not_mem_nil,
    or_false] at hrole
  obtain ⟨h1, h2, h3, h4, h5⟩ := hrole
  have hrc : roleClause role vs = none := by
    simp [roleClause, h1, h2, h3, h4, h5]
  have hproj : projectionFor role = .allCols := by
    simp [projectionFor, h1, h2, h3]
  constructor
  · intro hfa
    refine ⟨?_, by decide, by decide⟩
    unfold search_vehicles
    rw [hrc]
    simp only [hfa, Bool.false_eq_true, if_false]
    rw [hproj]
  · intro hfa
    have hres : search_vehicles db vt mf yr ft cl kw vn vs role =
        (projectionFor role, sortKey Row.vin (db.vehicles.map (fun v =>
          rowOfMigrated db (matchesFilters db vt mf yr ft cl kw vn v) v))) := by
      unfold search_vehicles
      rw [hrc]
      simp only [hfa, if_true]
    refine ⟨?_, ?_, ?_, ?_⟩
    · rw [hres, hproj]
    · rw [hres]
      show (sortKey Row.vin (db.vehicles.map (fun v =>
          rowOfMigrated db (matchesFilters db vt mf yr ft cl kw vn v) v))).length =
        db.vehicles.length
      rw [(perm_sortKey Row.vin _).length_eq, List.length_map]
    · intro vin
      rw [hres]
      show vin ∈ (sortKey Row.vin (db.vehicles.map (fun v =>
          rowOfMigrated db (matchesFilters db vt mf yr ft cl kw vn v) v))).map Row.vin ↔
        vin ∈ db.vehicles.map Vehicle.vin
      simp only [List.mem_map]
      constructor
      · rintro ⟨r, hr, rfl⟩
        rcases List.mem_map.mp (mem_sortKey.mp hr) with ⟨v, hv, rfl⟩
        exact ⟨v, hv, rfl⟩
      · rintro ⟨v, hv, rfl⟩
        exact ⟨rowOfMigrated db (matchesFilters db vt mf yr ft cl kw vn v) v,
          mem_sortKey.mpr (List.mem_map.mpr ⟨v, hv, rfl⟩), rfl⟩
    · intro r hr
      rw [hres] at hr
      rcases List.mem_map.mp (mem_sortKey.mp hr) with ⟨v, hv, rfl⟩
      refine ⟨v, hv, rfl, rfl, ?_⟩
      intro hmf
      rw [hmf]
      refine ⟨rfl, ?_⟩
      intro hnone p hp
      simp [rowOfMigrated, hnone, hp]

/-- C9 witness: with the unknown role `"Guest"` and no filters the search
returns both the unsold `V1` and the sold `V2` unprojected; with a
vehicle-type filter applied it still returns one row per vehicle. -/
theorem C9_witness :
    search_vehicles dbEx9 none none none none none none none none "Guest" =
      (.allCols, sortKey Row.vin (dbEx9.vehicles.map (rowOf dbEx9))) ∧
    (search_vehicles dbEx9 (some "SUV") none none none none none none none "Guest").2.length =
      dbEx9.vehicles.length := by
  constructor
  · exact ((C9_amended dbEx9 none none none none none none none none "Guest"
      (by decide)).1 rfl).1
  · exact ((C9_amended dbEx9 (some "SUV") none none none none none none none "Guest"
      (by decide)).2 rfl).2.1

/-- C10: the pair returned by `get_vehicle_counts` partitions the unsold
vehicles: `count_available_cars` counts exactly the distinct unsold VINs
with no non-Installed associated part (vehicles with zero parts
included), `count_cars_with_pending_parts` counts exactly the distinct
unsold VINs with at least one non-Installed associated part, and the two
counts sum to the number of unsold vehicles (as distinct VINs; under the
VIN primary key, the number of unsold `Vehicle` rows). -/
theorem C10_counts_partition (db : DB) :
    count_available_cars db =
      ((db.vehicles.map Vehicle.vin).dedup.filter
        (fun vin => !(hasSaleB db vin) && !(hasPendingPartsB db vin))).length ∧
    count_cars_with_pending_parts db =
      ((db.vehicles.map Vehicle.vin).dedup.filter
        (fun vin => !(hasSaleB db vin) && hasPendingPartsB db vin)).length ∧
    (get_vehicle_counts db).1 + (get_vehicle_counts db).2 =
      ((db.vehicles.map Vehicle.vin).dedup.filter
        (fun vin => !(hasSaleB db vin))).length ∧
    ((db.vehicles.map Vehicle.vin).Nodup →
      (get_vehicle_counts db).1 + (get_vehicle_counts db).2 =
        (db.vehicles.filter (fun v => !(hasSaleB db v.vin))).length) := by
  have havail : count_available_cars db =
      ((db.vehicles.map Vehicle.vin).dedup.filter
        (fun vin => !(hasSaleB db vin) && !(hasPendingPartsB db vin))).length := by
    rw [count_available_cars, map_filter_comm Vehicle.vin
      (fun vin => !(hasSaleB db vin) && !(hasPendingPartsB db vin)) db.vehicles,
      dedup_filter_comm]
  have hpend : count_cars_with_pending_parts db =
      ((db.vehicles.map Vehicle.vin).dedup.filter
        (fun vin => !(hasSaleB db vin) && hasPendingPartsB db vin)).length := by
    rw [count_cars_with_pending_parts, map_filter_comm Vehicle.vin
      (fun vin => !(hasSaleB db vin) && hasPendingPartsB db vin) db.vehicles,
      dedup_filter_comm]
  have key : ∀ (m : List String) (u q : String → Bool),
      (m.filter (fun a => u a && !(q a))).length +
        (m.filter (fun a => u a && q a)).length = (m.filter u).length := by
    intro m u q
    induction m with
    | nil => rfl
    | cons a l ih =>
      simp only [List.filter_cons]
      cases hu : u a <;> cases hq : q a <;>
        simp only [hu, hq, Bool.not_true, Bool.not_false, Bool.and_true,
          Bool.and_false, Bool.true_and, Bool.false_and, Bool.false_eq_true,
          if_true, if_false, List.length_cons, ite_true, ite_false] <;>
        omega
  have hsum : (get_vehicle_counts db).1 + (get_vehicle_counts db).2 =
      ((db.vehicles.map Vehicle.vin).dedup.filter
        (fun vin => !(hasSaleB db vin))).length := by
    show count_available_cars db + count_cars_with_pending_parts db = _
    rw [havail, hpend]
    exact key ((db.vehicles.map Vehicle.vin).dedup)
      (fun vin => !(hasSaleB db vin)) (fun vin => hasPendingPartsB db vin)
  refine ⟨havail, hpend, hsum, ?_⟩
  intro hnd
  rw [hsum, List.dedup_eq_self.mpr hnd,
    ← map_filter_comm Vehicle.vin (fun vin => !(hasSaleB db vin)) db.vehicles,
    List.length_map]

def dbEx10 : DB :=
  ⟨[⟨"V1", "SUV", "Honda", "CRV", 2020, "Gas", 190, "Good", "d"⟩,
    ⟨"V2", "Sedan", "Honda", "Civic", 2021, "Gas", 150, "Good", "d"⟩,
    ⟨"V3", "SUV", "Ford", "Edge", 2019, "Gas", 200, "Fair", "d"⟩],
   ["SUV", "Sedan"], [], [⟨"V2", "c", "u", 5, 9000⟩],
   [⟨"V1", "c", "u", 0, 1000⟩, ⟨"V2", "c", "u", 0, 2000⟩, ⟨"V3", "c", "u", 0, 3000⟩],
   [⟨"V3", "Acme", "V3-001", 50⟩],
   [⟨"V3-001", "p1", "d", 1, "Ordered", 50⟩]⟩

/-- C10 witness: with unsold `V1` (no parts), sold `V2`, and unsold `V3`
with a pending part, the counts are (1, 1) and sum to the 2 unsold
vehicles. -/
theorem C10_witness :
    get_vehicle_counts dbEx10 = (1, 1) ∧
    (get_vehicle_counts dbEx10).1 + (get_vehicle_counts dbEx10).2 =
      (dbEx10.vehicles.filter (fun v => !(hasSaleB dbEx10 v.vin))).length := by
  refine ⟨by decide, ?_⟩
  exact (C10_counts_partition dbEx10).2.2.2 (by decide)

end VehicleInventory
